import Mathlib

/-!
Verification of the back-mavlink flight-controller link manager against its
specification.  The repository ships the UI layers (Next.js dashboard,
React Native mobile app) and deployment scripts; the link manager itself
(Transport, Link State Machine, Telemetry Ingest Loop, Command Dispatcher,
Link Manager Facade) is described by the specification, so its operations
are modelled here from the spec, while the mobile-app code (Joystick
component, DroneContext.sendCommand) is embedded directly from the source.
All float-valued quantities are modelled with exact arithmetic (Rat for the
computable parts, Real for the joystick geometry).
-/

namespace BackMavlink

/-! ## Telemetry data model (spec section 3) -/

/-- Geographic position carried in a telemetry snapshot: latitude and
longitude in degrees, altitude in meters. -/
structure Position where
  latitude : Rat
  longitude : Rat
  altitude : Rat
deriving Repr, DecidableEq

/-- Vehicle attitude in degrees. -/
structure Attitude where
  roll : Rat
  pitch : Rat
  yaw : Rat
deriving Repr, DecidableEq

/-- Battery state: voltage and remaining percent. -/
structure Battery where
  voltage : Rat
  remaining : Rat
deriving Repr, DecidableEq

/-- GPS quality: satellite count and HDOP. -/
structure GpsQuality where
  satellites : Nat
  hdop : Rat
deriving Repr, DecidableEq

/-- Modelled from the spec: the TelemetrySnapshot of section 3 — the latest
known vehicle state plus a monotonically increasing sequence number and a
last-update timestamp.  The concrete snapshot lives in the backend, which is
not among the shipped sources; its field list follows the spec and matches
the Telemetry interface consumed by `src/mobile/src/context/DroneContext.tsx`. -/
structure TelemetrySnapshot where
  armed : Bool
  mode : String
  position : Position
  attitude : Attitude
  groundSpeed : Rat
  verticalSpeed : Rat
  battery : Battery
  gps : GpsQuality
  seq : Nat
  lastUpdate : Nat
deriving Repr, DecidableEq

/-- Modelled from the spec: a decoded inbound vehicle-state message.  Each
field is `some v` exactly when the message carries (touches) that snapshot
field, `none` when the message does not touch it (spec 4.3: tagged-variant
decode result, merged field-level). -/
structure VehicleMsg where
  armed : Option Bool
  mode : Option String
  position : Option Position
  attitude : Option Attitude
  groundSpeed : Option Rat
  verticalSpeed : Option Rat
  battery : Option Battery
  gps : Option GpsQuality
  timestamp : Nat
deriving Repr, DecidableEq

/-- Modelled from the spec: the Telemetry Ingest Loop's merge of one decoded
message into the snapshot (spec 4.3): every field the message carries
overwrites the snapshot field, every field it does not carry is left
unchanged, and the sequence number is incremented. -/
def applyMessage (s : TelemetrySnapshot) (m : VehicleMsg) : TelemetrySnapshot where
  armed := m.armed.getD s.armed
  mode := m.mode.getD s.mode
  position := m.position.getD s.position
  attitude := m.attitude.getD s.attitude
  groundSpeed := m.groundSpeed.getD s.groundSpeed
  verticalSpeed := m.verticalSpeed.getD s.verticalSpeed
  battery := m.battery.getD s.battery
  gps := m.gps.getD s.gps
  seq := s.seq + 1
  lastUpdate := m.timestamp

/-- Processing a whole sequence of inbound messages, in arrival order. -/
def ingest (s : TelemetrySnapshot) (msgs : List VehicleMsg) : TelemetrySnapshot :=
  msgs.foldl applyMessage s

/-- The value a single field ends up with after a sequence of messages: the
value carried by the most recent message that set the field, or `init` when
no message in the list touches it. -/
def lastField {α : Type} (f : VehicleMsg → Option α) (init : α) :
    List VehicleMsg → α
  | [] => init
  | m :: ms => lastField f ((f m).getD init) ms

theorem ingest_seq_le :
    ∀ (msgs : List VehicleMsg) (s : TelemetrySnapshot),
      s.seq ≤ (ingest s msgs).seq := by
  intro msgs
  induction msgs with
  | nil => intro s; exact Nat.le_refl _
  | cons m ms ih =>
    intro s
    have h1 : s.seq ≤ (applyMessage s m).seq := Nat.le_succ _
    exact Nat.le_trans h1 (ih (applyMessage s m))

theorem ingest_field {α : Type} (g : TelemetrySnapshot → α)
    (f : VehicleMsg → Option α)
    (hg : ∀ s m, g (applyMessage s m) = (f m).getD (g s)) :
    ∀ (msgs : List VehicleMsg) (s : TelemetrySnapshot),
      g (ingest s msgs) = lastField f (g s) msgs := by
  intro msgs
  induction msgs with
  | nil => intro s; rfl
  | cons m ms ih =>
    intro s
    show g (ingest (applyMessage s m) ms) = lastField f ((f m).getD (g s)) ms
    rw [ih (applyMessage s m), hg]

/-- C1: For every sequence of inbound messages processed by the Telemetry
Ingest Loop, the snapshot's sequence number is non-decreasing, and merging
is field-level: after processing any message sequence, every snapshot field
equals the value carried by the most recently received message that set that
field (or the initial value when none did), and a message that does not
touch a field — e.g. one with `position := none`, such as a battery-only
message — leaves that field unchanged while still advancing the sequence
number. -/
theorem telemetry_merge_spec (s : TelemetrySnapshot) (msgs : List VehicleMsg)
    (m : VehicleMsg) :
    s.seq ≤ (ingest s msgs).seq
    ∧ (ingest s msgs).armed = lastField (fun x => x.armed) s.armed msgs
    ∧ (ingest s msgs).mode = lastField (fun x => x.mode) s.mode msgs
    ∧ (ingest s msgs).position = lastField (fun x => x.position) s.position msgs
    ∧ (ingest s msgs).attitude = lastField (fun x => x.attitude) s.attitude msgs
    ∧ (ingest s msgs).groundSpeed
        = lastField (fun x => x.groundSpeed) s.groundSpeed msgs
    ∧ (ingest s msgs).verticalSpeed
        = lastField (fun x => x.verticalSpeed) s.verticalSpeed msgs
    ∧ (ingest s msgs).battery = lastField (fun x => x.battery) s.battery msgs
    ∧ (ingest s msgs).gps = lastField (fun x => x.gps) s.gps msgs
    ∧ (applyMessage s { m with position := none }).position = s.position
    ∧ (applyMessage s { m with position := none }).seq = s.seq + 1 :=
  ⟨ingest_seq_le msgs s,
   ingest_field (fun t => t.armed) (fun x => x.armed) (fun _ _ => rfl) msgs s,
   ingest_field (fun t => t.mode) (fun x => x.mode) (fun _ _ => rfl) msgs s,
   ingest_field (fun t => t.position) (fun x => x.position) (fun _ _ => rfl) msgs s,
   ingest_field (fun t => t.attitude) (fun x => x.attitude) (fun _ _ => rfl) msgs s,
   ingest_field (fun t => t.groundSpeed) (fun x => x.groundSpeed) (fun _ _ => rfl) msgs s,
   ingest_field (fun t => t.verticalSpeed) (fun x => x.verticalSpeed) (fun _ _ => rfl) msgs s,
   ingest_field (fun t => t.battery) (fun x => x.battery) (fun _ _ => rfl) msgs s,
   ingest_field (fun t => t.gps) (fun x => x.gps) (fun _ _ => rfl) msgs s,
   rfl, rfl⟩

/-! ## Link configuration and Link State Machine (spec sections 3 and 4.2) -/

/-- Modelled from the spec: the immutable LinkConfig of section 3 — endpoint
descriptor, baud rate, heartbeat timeout, DEGRADED grace period, reconnect
backoff parameters and command ack timeout.  The concrete config lives in
the backend (`backend/config.py` per the README), which is not among the
shipped sources.  Timeouts and delays are in abstract time units. -/
structure LinkConfig where
  endpoint : String
  baud : Nat
  heartbeatTimeout : Nat
  grace : Nat
  baseDelay : Nat
  maxDelay : Nat
  ackTimeout : Nat
deriving Repr, DecidableEq

/-- Link lifecycle states (spec section 3). -/
inductive LinkState
  | disconnected
  | connecting
  | connected
  | degraded
deriving Repr, DecidableEq

/-- Modelled from the spec: the mutable state owned by the Link State
Machine — current link state, time units elapsed since the last valid
message, whether a transport is open, whether a reconnect attempt is
scheduled, and the consecutive-failure counter driving backoff. -/
structure LsmState where
  link : LinkState
  silent : Nat
  transportOpen : Bool
  reconnectScheduled : Bool
  attempts : Nat
deriving Repr, DecidableEq

/-- Events driving the Link State Machine: one time unit passing with no
traffic, receipt of a valid message (flagged as heartbeat or not — the
machine treats both identically, spec 4.2), and the outcome of a
`Transport.open` attempt. -/
inductive LsmEvent
  | tick
  | msg (isHeartbeat : Bool)
  | openOk
  | openFail
deriving Repr, DecidableEq

/-- Modelled from the spec: one step of the Link State Machine (spec 4.2).
Any valid message resets the heartbeat timer (and restores a DEGRADED link
to CONNECTED).  With no traffic, a CONNECTED link degrades once the
heartbeat timeout elapses, and a DEGRADED link is force-closed and returned
to DISCONNECTED (scheduling a reconnect) once one additional grace period
elapses.  A successful open enters CONNECTED and resets the attempt
counter; a failed open re-enters DISCONNECTED and bumps it. -/
def lsmStep (cfg : LinkConfig) (s : LsmState) : LsmEvent → LsmState
  | .msg _ =>
    { s with
      silent := 0
      link := match s.link with
        | .degraded => .connected
        | l => l }
  | .tick =>
    let n := s.silent + 1
    match s.link with
    | .connected =>
      if cfg.heartbeatTimeout ≤ n then { s with silent := n, link := .degraded }
      else { s with silent := n }
    | .degraded =>
      if cfg.heartbeatTimeout + cfg.grace ≤ n then
        { s with silent := n, link := .disconnected, transportOpen := false,
                 reconnectScheduled := true }
      else { s with silent := n }
    | _ => { s with silent := n }
  | .openOk =>
    { s with link := .connected, attempts := 0, transportOpen := true,
             silent := 0, reconnectScheduled := false }
  | .openFail =>
    { s with link := .disconnected, attempts := s.attempts + 1,
             reconnectScheduled := true }

/-- Running the Link State Machine over a sequence of events. -/
def lsmRun (cfg : LinkConfig) (s : LsmState) (evts : List LsmEvent) : LsmState :=
  evts.foldl (lsmStep cfg) s

/-- Modelled from the spec: the reconnect delay applied before a
DISCONNECTED → CONNECTING transition after `attempt` consecutive failures
(spec 4.2): exponential backoff capped at the maximum delay. -/
def reconnectDelay (cfg : LinkConfig) (attempt : Nat) : Nat :=
  min (cfg.baseDelay * 2 ^ attempt) cfg.maxDelay

theorem run_openFail_attempts (cfg : LinkConfig) :
    ∀ (n : Nat) (s : LsmState),
      (lsmRun cfg s (List.replicate n .openFail)).attempts = s.attempts + n := by
  intro n
  induction n with
  | zero => intro s; rfl
  | succ k ih =>
    intro s
    rw [List.replicate_succ]
    show (lsmRun cfg (lsmStep cfg s .openFail) (List.replicate k .openFail)).attempts
        = s.attempts + (k + 1)
    rw [ih (lsmStep cfg s .openFail)]
    show s.attempts + 1 + k = s.attempts + (k + 1)
    omega

/-- C2: after N consecutive failed connection attempts (starting from a
reset counter), the reconnect delay applied before the next
DISCONNECTED → CONNECTING transition equals `min (base · 2^N) max`, and any
successful CONNECTED entry resets the attempt counter to 0 so that the
delay returns to the base delay. -/
theorem reconnect_backoff_spec (cfg : LinkConfig) (s t : LsmState) (N : Nat)
    (hb : cfg.baseDelay ≤ cfg.maxDelay) (h0 : s.attempts = 0) :
    reconnectDelay cfg (lsmRun cfg s (List.replicate N .openFail)).attempts
      = min (cfg.baseDelay * 2 ^ N) cfg.maxDelay
    ∧ (lsmStep cfg t .openOk).attempts = 0
    ∧ reconnectDelay cfg (lsmStep cfg t .openOk).attempts = cfg.baseDelay := by
  refine ⟨?_, rfl, ?_⟩
  · rw [reconnectDelay, run_openFail_attempts cfg N s, h0, Nat.zero_add]
  · show min (cfg.baseDelay * 2 ^ 0) cfg.maxDelay = cfg.baseDelay
    rw [pow_zero, Nat.mul_one]
    exact Nat.min_eq_left hb

/-- Witness for C2 at a concrete configuration: base delay 1, max delay 8,
three consecutive failures. -/
theorem reconnect_backoff_spec_witness :
    reconnectDelay ⟨"/dev/ttyACM0", 57600, 3, 2, 1, 8, 3⟩
        (lsmRun ⟨"/dev/ttyACM0", 57600, 3, 2, 1, 8, 3⟩
          ⟨LinkState.disconnected, 0, false, false, 0⟩
          (List.replicate 3 .openFail)).attempts
      = min (1 * 2 ^ 3) 8
    ∧ (lsmStep ⟨"/dev/ttyACM0", 57600, 3, 2, 1, 8, 3⟩
        ⟨LinkState.connecting, 0, false, true, 3⟩ .openOk).attempts = 0
    ∧ reconnectDelay ⟨"/dev/ttyACM0", 57600, 3, 2, 1, 8, 3⟩
        (lsmStep ⟨"/dev/ttyACM0", 57600, 3, 2, 1, 8, 3⟩
          ⟨LinkState.connecting, 0, false, true, 3⟩ .openOk).attempts = 1 :=
  reconnect_backoff_spec ⟨"/dev/ttyACM0", 57600, 3, 2, 1, 8, 3⟩
    ⟨LinkState.disconnected, 0, false, false, 0⟩
    ⟨LinkState.connecting, 0, false, true, 3⟩ 3 (by decide) rfl

theorem run_tick_connected (cfg : LinkConfig) :
    ∀ (k : Nat) (s : LsmState), s.link = .connected →
      s.silent + k < cfg.heartbeatTimeout →
      lsmRun cfg s (List.replicate k .tick) = { s with silent := s.silent + k } := by
  intro k
  induction k with
  | zero => intro s _ _; rfl
  | succ j ih =>
    intro s hlink hlt
    rw [List.replicate_succ]
    show lsmRun cfg (lsmStep cfg s .tick) (List.replicate j .tick)
        = { s with silent := s.silent + (j + 1) }
    have hstep : lsmStep cfg s .tick = { s with silent := s.silent + 1 } := by
      simp only [lsmStep, hlink]
      rw [if_neg (by omega)]
    rw [hstep, ih { s with silent := s.silent + 1 } hlink (by simp; omega)]
    simp
    omega

theorem run_tick_degraded (cfg : LinkConfig) :
    ∀ (k : Nat) (s : LsmState), s.link = .degraded →
      s.silent + k < cfg.heartbeatTimeout + cfg.grace →
      lsmRun cfg s (List.replicate k .tick) = { s with silent := s.silent + k } := by
  intro k
  induction k with
  | zero => intro s _ _; rfl
  | succ j ih =>
    intro s hlink hlt
    rw [List.replicate_succ]
    show lsmRun cfg (lsmStep cfg s .tick) (List.replicate j .tick)
        = { s with silent := s.silent + (j + 1) }
    have hstep : lsmStep cfg s .tick = { s with silent := s.silent + 1 } := by
      simp only [lsmStep, hlink]
      rw [if_neg (by omega)]
    rw [hstep, ih { s with silent := s.silent + 1 } hlink (by simp; omega)]
    simp
    omega

theorem degrade_after (cfg : LinkConfig) (s : LsmState)
    (hlink : s.link = .connected) (hsil : s.silent = 0)
    (hhb : 1 ≤ cfg.heartbeatTimeout) :
    lsmRun cfg s (List.replicate cfg.heartbeatTimeout .tick)
      = { s with silent := cfg.heartbeatTimeout, link := .degraded } := by
  obtain ⟨m, hm⟩ : ∃ m, cfg.heartbeatTimeout = m + 1 :=
    ⟨cfg.heartbeatTimeout - 1, by omega⟩
  rw [hm, List.replicate_succ']
  have h1 : lsmRun cfg s (List.replicate m .tick) = { s with silent := s.silent + m } :=
    run_tick_connected cfg m s hlink (by omega)
  show List.foldl (lsmStep cfg) s (List.replicate m .tick ++ [.tick]) = _
  rw [List.foldl_append]
  show lsmStep cfg (lsmRun cfg s (List.replicate m .tick)) .tick = _
  rw [h1]
  simp only [lsmStep, hlink]
  rw [if_pos (by omega)]
  simp [hsil]

theorem disconnect_after (cfg : LinkConfig) (s : LsmState)
    (hlink : s.link = .connected) (hsil : s.silent = 0)
    (hhb : 1 ≤ cfg.heartbeatTimeout) (hg : 1 ≤ cfg.grace) :
    lsmRun cfg s (List.replicate (cfg.heartbeatTimeout + cfg.grace) .tick)
      = { s with silent := cfg.heartbeatTimeout + cfg.grace,
                 link := .disconnected, transportOpen := false,
                 reconnectScheduled := true } := by
  obtain ⟨j, hj⟩ : ∃ j, cfg.grace = j + 1 := ⟨cfg.grace - 1, by omega⟩
  rw [List.replicate_add]
  show List.foldl (lsmStep cfg) s
      (List.replicate cfg.heartbeatTimeout .tick ++ List.replicate cfg.grace .tick) = _
  rw [List.foldl_append]
  show lsmRun cfg (lsmRun cfg s (List.replicate cfg.heartbeatTimeout .tick))
      (List.replicate cfg.grace .tick) = _
  rw [degrade_after cfg s hlink hsil hhb]
  rw [hj, List.replicate_succ']
  have h2 : lsmRun cfg { s with silent := cfg.heartbeatTimeout, link := .degraded }
      (List.replicate j .tick)
      = { s with silent := cfg.heartbeatTimeout + j, link := .degraded } := by
    rw [run_tick_degraded cfg j
      { s with silent := cfg.heartbeatTimeout, link := .degraded } rfl (by simp; omega)]
  show List.foldl (lsmStep cfg) { s with silent := cfg.heartbeatTimeout, link := .degraded }
      (List.replicate j .tick ++ [.tick]) = _
  rw [List.foldl_append]
  show lsmStep cfg (lsmRun cfg { s with silent := cfg.heartbeatTimeout, link := .degraded }
      (List.replicate j .tick)) .tick = _
  rw [h2]
  simp only [lsmStep]
  rw [if_pos (by omega)]
  simp [hj]
  omega

/-- C3: in every execution of the Link State Machine in which no valid
message arrives for `heartbeat_timeout` while CONNECTED, the link
transitions to DEGRADED; if still no message arrives during one additional
grace period, the transport is closed, the state transitions to
DISCONNECTED and a reconnect attempt is scheduled; and receipt of any valid
message — heartbeat or not — resets the heartbeat timer to zero. -/
theorem heartbeat_supervision_spec (cfg : LinkConfig) (s : LsmState) (b : Bool)
    (hhb : 1 ≤ cfg.heartbeatTimeout) (hg : 1 ≤ cfg.grace)
    (hlink : s.link = .connected) (hsil : s.silent = 0) :
    (lsmRun cfg s (List.replicate cfg.heartbeatTimeout .tick)).link = .degraded
    ∧ (lsmRun cfg s (List.replicate (cfg.heartbeatTimeout + cfg.grace) .tick)).link
        = .disconnected
    ∧ (lsmRun cfg s
        (List.replicate (cfg.heartbeatTimeout + cfg.grace) .tick)).transportOpen = false
    ∧ (lsmRun cfg s
        (List.replicate (cfg.heartbeatTimeout + cfg.grace) .tick)).reconnectScheduled
        = true
    ∧ (lsmStep cfg s (.msg b)).silent = 0 := by
  rw [degrade_after cfg s hlink hsil hhb, disconnect_after cfg s hlink hsil hhb hg]
  exact ⟨rfl, rfl, rfl, rfl, rfl⟩

/-- Witness for C3 at a concrete configuration: heartbeat timeout 2, grace
period 1, a connected link with a fresh heartbeat timer and a non-heartbeat
message. -/
theorem heartbeat_supervision_spec_witness :
    (lsmRun ⟨"SIM", 57600, 2, 1, 1, 8, 3⟩ ⟨LinkState.connected, 0, true, false, 0⟩
      (List.replicate 2 .tick)).link = .degraded
    ∧ (lsmRun ⟨"SIM", 57600, 2, 1, 1, 8, 3⟩ ⟨LinkState.connected, 0, true, false, 0⟩
        (List.replicate (2 + 1) .tick)).link = .disconnected
    ∧ (lsmRun ⟨"SIM", 57600, 2, 1, 1, 8, 3⟩ ⟨LinkState.connected, 0, true, false, 0⟩
        (List.replicate (2 + 1) .tick)).transportOpen = false
    ∧ (lsmRun ⟨"SIM", 57600, 2, 1, 1, 8, 3⟩ ⟨LinkState.connected, 0, true, false, 0⟩
        (List.replicate (2 + 1) .tick)).reconnectScheduled = true
    ∧ (lsmStep ⟨"SIM", 57600, 2, 1, 1, 8, 3⟩ ⟨LinkState.connected, 0, true, false, 0⟩
        (.msg false)).silent = 0 :=
  heartbeat_supervision_spec ⟨"SIM", 57600, 2, 1, 1, 8, 3⟩
    ⟨LinkState.connected, 0, true, false, 0⟩ false (by decide) (by decide) rfl rfl

/-! ## Command Dispatcher and PendingAck table (spec sections 3, 4.3, 4.4) -/

/-- Command kinds accepted by the dispatcher (spec section 3). -/
inductive CmdKind
  | arm
  | disarm
  | setMode
  | takeoffCmd
  | landCmd
  | rcOverrideCmd
  | emergencyCmd
deriving Repr, DecidableEq

/-- Typed command outcome surfaced to callers (spec section 7): never thrown,
always returned as a value. -/
inductive CmdResult
  | success
  | rejected (code : Nat)
  | timedOut
  | validationError
deriving Repr, DecidableEq

/-- Modelled from the spec: a CommandRequest (spec section 3) — kind, a
numeric parameter, an opaque correlation id and the submission time. -/
structure CommandRequest where
  kind : CmdKind
  param : Rat
  corrId : Nat
  submittedAt : Nat
deriving Repr, DecidableEq

/-- RC axis override values: each axis is `some v` when supplied,
`none` meaning "leave that axis unchanged" (spec 4.4). -/
structure RcAxes where
  throttle : Option Rat
  yaw : Option Rat
  pitch : Option Rat
  roll : Option Rat
deriving Repr, DecidableEq

/-- Modelled from the spec: the dispatcher-side mutable state — the
PendingAck table mapping correlation id to the waiting request, the list of
results delivered to waiting callers, the transport write-call count, and
the coalescing buffer holding the latest RC_OVERRIDE axes not yet sent. -/
structure DispatchState where
  pending : List (Nat × CommandRequest)
  delivered : List (Nat × CmdResult)
  writes : Nat
  latestRc : Option RcAxes
deriving Repr, DecidableEq

/-- Lookup in the PendingAck table by correlation id. -/
def findPending (id : Nat) : List (Nat × CommandRequest) → Option CommandRequest
  | [] => none
  | e :: rest => if e.1 = id then some e.2 else findPending id rest

/-- The PendingAck table holds at most one entry per correlation id. -/
def keysNodup (l : List (Nat × CommandRequest)) : Prop :=
  (l.map Prod.fst).Nodup

instance (l : List (Nat × CommandRequest)) : Decidable (keysNodup l) :=
  List.nodupDecidable _

/-- Modelled from the spec: registering a freshly created CommandRequest in
the PendingAck table before it is written to the transport (spec 4.4). -/
def registerPending (st : DispatchState) (req : CommandRequest) : DispatchState :=
  { st with pending := (req.corrId, req) :: st.pending }

/-- Modelled from the spec: the Telemetry Ingest Loop's handling of a
command acknowledgment (spec 4.3): look up the PendingAck table by
correlation id; if found, deliver the result to the waiting caller and
remove the entry; if not found, discard silently. -/
def handleAck (st : DispatchState) (id : Nat) (res : CmdResult) : DispatchState :=
  match findPending id st.pending with
  | some _ =>
    { st with pending := st.pending.filter (fun e => e.1 != id),
              delivered := st.delivered ++ [(id, res)] }
  | none => st

/-- Modelled from the spec: expiry of the ack timeout for a pending request
(spec 4.4 outcome c): the stale entry is removed and a CommandTimedOut
result is delivered to the caller. -/
def timeoutPending (st : DispatchState) (id : Nat) : DispatchState :=
  match findPending id st.pending with
  | some _ =>
    { st with pending := st.pending.filter (fun e => e.1 != id),
              delivered := st.delivered ++ [(id, CmdResult.timedOut)] }
  | none => st

theorem findPending_filter_self (id : Nat) :
    ∀ (l : List (Nat × CommandRequest)),
      findPending id (l.filter (fun e => e.1 != id)) = none := by
  intro l
  induction l with
  | nil => rfl
  | cons e rest ih =>
    by_cases h : e.1 = id
    · simp [List.filter_cons, h, ih]
    · simp [List.filter_cons, h, findPending, ih]

theorem keysNodup_filter (p : Nat × CommandRequest → Bool)
    (l : List (Nat × CommandRequest)) (h : keysNodup l) :
    keysNodup (l.filter p) :=
  ((List.filter_sublist l).map Prod.fst).nodup h

theorem findPending_eq_none_iff (id : Nat) :
    ∀ (l : List (Nat × CommandRequest)),
      findPending id l = none ↔ id ∉ l.map Prod.fst := by
  intro l
  induction l with
  | nil => simp [findPending]
  | cons e rest ih =>
    by_cases h : e.1 = id
    · simp [findPending, h]
    · rw [findPending, if_neg h, List.map_cons]
      constructor
      · intro hn hmem
        rcases List.mem_cons.mp hmem with h1 | h2
        · exact h h1.symm
        · exact (ih.mp hn) h2
      · intro hnot
        exact ih.mpr fun h2 => hnot (List.mem_cons.mpr (Or.inr h2))

/-- C4: a CommandRequest registered in the PendingAck table for which no
acknowledgment arrives within the ack timeout resolves with a
CommandTimedOut result delivered to its caller and its entry is removed
from the table; an acknowledgment arriving after that removal finds no
entry and is discarded silently (the state is unchanged, so the request is
never resolved twice); and removal preserves the at-most-one-entry-per-
request discipline of the table. -/
theorem pending_ack_timeout_spec (st : DispatchState) (id : Nat)
    (res : CmdResult) (req r : CommandRequest)
    (hfound : findPending id st.pending = some req)
    (hnd : keysNodup st.pending)
    (hfresh : findPending r.corrId st.pending = none) :
    findPending id (timeoutPending st id).pending = none
    ∧ (timeoutPending st id).delivered = st.delivered ++ [(id, CmdResult.timedOut)]
    ∧ handleAck (timeoutPending st id) id res = timeoutPending st id
    ∧ keysNodup (timeoutPending st id).pending
    ∧ keysNodup (registerPending st r).pending := by
  have hto : timeoutPending st id
      = { st with pending := st.pending.filter (fun e => e.1 != id),
                  delivered := st.delivered ++ [(id, CmdResult.timedOut)] } := by
    rw [timeoutPending, hfound]
  have hnone : findPending id (timeoutPending st id).pending = none := by
    rw [hto]
    exact findPending_filter_self id st.pending
  refine ⟨hnone, by rw [hto], ?_, ?_, ?_⟩
  · rw [handleAck, hnone]
  · rw [hto]
    exact keysNodup_filter _ st.pending hnd
  · show ((r.corrId, r) :: st.pending |>.map Prod.fst).Nodup
    rw [List.map_cons]
    exact List.nodup_cons.mpr ⟨(findPending_eq_none_iff r.corrId st.pending).mp hfresh, hnd⟩

/-- Witness for C4: a table holding exactly one pending TAKEOFF request with
correlation id 5, timed out, then hit by a late successful ack; a fresh
request with correlation id 6 is registered. -/
theorem pending_ack_timeout_spec_witness :
    findPending 5 (timeoutPending ⟨[(5, ⟨CmdKind.takeoffCmd, 10, 5, 0⟩)], [], 1, none⟩
        5).pending = none
    ∧ (timeoutPending ⟨[(5, ⟨CmdKind.takeoffCmd, 10, 5, 0⟩)], [], 1, none⟩ 5).delivered
        = [] ++ [(5, CmdResult.timedOut)]
    ∧ handleAck (timeoutPending ⟨[(5, ⟨CmdKind.takeoffCmd, 10, 5, 0⟩)], [], 1, none⟩ 5)
        5 CmdResult.success
        = timeoutPending ⟨[(5, ⟨CmdKind.takeoffCmd, 10, 5, 0⟩)], [], 1, none⟩ 5
    ∧ keysNodup (timeoutPending ⟨[(5, ⟨CmdKind.takeoffCmd, 10, 5, 0⟩)], [], 1, none⟩
        5).pending
    ∧ keysNodup (registerPending ⟨[(5, ⟨CmdKind.takeoffCmd, 10, 5, 0⟩)], [], 1, none⟩
        ⟨CmdKind.arm, 0, 6, 1⟩).pending :=
  pending_ack_timeout_spec ⟨[(5, ⟨CmdKind.takeoffCmd, 10, 5, 0⟩)], [], 1, none⟩ 5
    CmdResult.success ⟨CmdKind.takeoffCmd, 10, 5, 0⟩ ⟨CmdKind.arm, 0, 6, 1⟩
    (by decide) (by decide) (by decide)

/-- Modelled from the spec: the TAKEOFF command method (spec 4.4): the
altitude parameter is validated first; altitude ≤ 0 fails fast with a
ValidationError without touching the transport or the PendingAck table.  On
valid input the request is registered and written to the transport, the
result then awaiting the ack (`none` here: outcome delivered later by the
ingest loop). -/
def takeoffCommand (st : DispatchState) (now id : Nat) (alt : Rat) :
    Option CmdResult × DispatchState :=
  if alt ≤ 0 then (some CmdResult.validationError, st)
  else
    let st1 := registerPending st ⟨CmdKind.takeoffCmd, alt, id, now⟩
    (none, { st1 with writes := st1.writes + 1 })

/-- C5: for every TAKEOFF command whose altitude parameter is ≤ 0, the
command method returns a ValidationError result and the dispatcher state —
including the transport write-call count (which therefore stays at 0 when
it starts there) and the PendingAck table — is unchanged. -/
theorem takeoff_validation_spec (st : DispatchState) (now id : Nat) (alt : Rat)
    (h : alt ≤ 0) :
    takeoffCommand st now id alt = (some CmdResult.validationError, st)
    ∧ (takeoffCommand st now id alt).2.writes = st.writes
    ∧ (takeoffCommand st now id alt).2.pending = st.pending := by
  have ht : takeoffCommand st now id alt = (some CmdResult.validationError, st) := by
    rw [takeoffCommand, if_pos h]
  exact ⟨ht, by rw [ht], by rw [ht]⟩

/-- Witness for C5: TAKEOFF with altitude −1 against a fresh dispatcher
state whose write-call count is 0. -/
theorem takeoff_validation_spec_witness :
    takeoffCommand ⟨[], [], 0, none⟩ 0 1 (-1)
      = (some CmdResult.validationError, ⟨[], [], 0, none⟩)
    ∧ (takeoffCommand ⟨[], [], 0, none⟩ 0 1 (-1)).2.writes = (0 : Nat)
    ∧ (takeoffCommand ⟨[], [], 0, none⟩ 0 1 (-1)).2.pending = [] :=
  takeoff_validation_spec ⟨[], [], 0, none⟩ 0 1 (-1) (by norm_num)

/-- One supplied RC axis value is valid when it lies in [-1, 1]; an
undefined axis is always acceptable (spec 4.4). -/
def axisOk : Option Rat → Bool
  | none => true
  | some v => decide (-1 ≤ v) && decide (v ≤ 1)

/-- Validation of a whole RC_OVERRIDE request: every supplied axis value
must lie in [-1, 1]. -/
def rcValid (a : RcAxes) : Bool :=
  axisOk a.throttle && axisOk a.yaw && axisOk a.pitch && axisOk a.roll

/-- Modelled from the spec: the RC_OVERRIDE command method (spec 4.4 and
section 5).  It is fire-and-forget: the result is produced immediately with
no PendingAck registration and no ack wait; a valid request replaces the
coalescing buffer (last-write-wins), an invalid one fails fast with a
ValidationError and changes nothing. -/
def rcOverride (st : DispatchState) (a : RcAxes) :
    Option CmdResult × DispatchState :=
  if rcValid a then (some CmdResult.success, { st with latestRc := some a })
  else (some CmdResult.validationError, st)

/-- Modelled from the spec: draining the RC coalescing buffer when the
transport becomes ready: only the most recent axis values are written. -/
def flushRc (st : DispatchState) : DispatchState :=
  match st.latestRc with
  | some _ => { st with writes := st.writes + 1, latestRc := none }
  | none => st

/-- The four RC axis values as applied on the vehicle side. -/
structure RcApplied where
  throttle : Rat
  yaw : Rat
  pitch : Rat
  roll : Rat
deriving Repr, DecidableEq

/-- Applying an RC_OVERRIDE to the current axis values: a supplied axis
overwrites, an undefined axis leaves the previous value unchanged. -/
def applyRcAxes (cur : RcApplied) (a : RcAxes) : RcApplied where
  throttle := a.throttle.getD cur.throttle
  yaw := a.yaw.getD cur.yaw
  pitch := a.pitch.getD cur.pitch
  roll := a.roll.getD cur.roll

/-- C8: every RC_OVERRIDE dispatch is fire-and-forget — it registers no
PendingAck entry and its result is produced immediately rather than by an
acknowledgment; its axis values are valid exactly when each supplied value
lies in [-1, 1]; an undefined axis leaves that axis unchanged when applied;
and when several RC_OVERRIDE requests arrive before the transport can send,
only the latest valid request's axis values remain in the coalescing buffer
(last-write-wins). -/
theorem rc_override_spec (st : DispatchState) (a b : RcAxes) (cur : RcApplied)
    (hbv : rcValid b = true) :
    (rcOverride st a).2.pending = st.pending
    ∧ (rcOverride st a).1
        = some (if rcValid a then CmdResult.success else CmdResult.validationError)
    ∧ (rcValid a = true ↔
        ((∀ v : Rat, a.throttle = some v → -1 ≤ v ∧ v ≤ 1)
          ∧ (∀ v : Rat, a.yaw = some v → -1 ≤ v ∧ v ≤ 1)
          ∧ (∀ v : Rat, a.pitch = some v → -1 ≤ v ∧ v ≤ 1)
          ∧ (∀ v : Rat, a.roll = some v → -1 ≤ v ∧ v ≤ 1)))
    ∧ (rcOverride (rcOverride st a).2 b).2.latestRc = some b
    ∧ (applyRcAxes cur { a with throttle := none }).throttle = cur.throttle
    ∧ (applyRcAxes cur { a with yaw := none }).yaw = cur.yaw
    ∧ (applyRcAxes cur { a with pitch := none }).pitch = cur.pitch
    ∧ (applyRcAxes cur { a with roll := none }).roll = cur.roll := by
  have haxis : ∀ o : Option Rat,
      axisOk o = true ↔ ∀ v : Rat, o = some v → -1 ≤ v ∧ v ≤ 1 := by
    intro o
    cases o with
    | none => simp [axisOk]
    | some v => simp [axisOk, and_comm]
  refine ⟨?_, ?_, ?_, ?_, rfl, rfl, rfl, rfl⟩
  · rw [rcOverride]
    by_cases h : rcValid a = true
    · rw [if_pos h]
    · rw [if_neg h]
  · rw [rcOverride]
    by_cases h : rcValid a = true
    · rw [if_pos h, if_pos h]
    · rw [if_neg h, if_neg h]
  · rw [rcValid]
    simp only [Bool.and_eq_true, and_assoc]
    rw [haxis, haxis, haxis, haxis]
  · show (rcOverride _ b).2.latestRc = some b
    rw [rcOverride, if_pos hbv]

/-- Witness for C8: a first request supplying only throttle 1/2, superseded
by a later request supplying yaw −1 before the transport sends. -/
theorem rc_override_spec_witness :
    (rcOverride ⟨[], [], 0, none⟩ ⟨some (1/2), none, none, none⟩).2.pending = []
    ∧ (rcOverride ⟨[], [], 0, none⟩ ⟨some (1/2), none, none, none⟩).1
        = some (if rcValid ⟨some (1/2), none, none, none⟩ then CmdResult.success
            else CmdResult.validationError)
    ∧ (rcValid ⟨some (1/2), none, none, none⟩ = true ↔
        ((∀ v : Rat, (some (1/2) : Option Rat) = some v → -1 ≤ v ∧ v ≤ 1)
          ∧ (∀ v : Rat, (none : Option Rat) = some v → -1 ≤ v ∧ v ≤ 1)
          ∧ (∀ v : Rat, (none : Option Rat) = some v → -1 ≤ v ∧ v ≤ 1)
          ∧ (∀ v : Rat, (none : Option Rat) = some v → -1 ≤ v ∧ v ≤ 1)))
    ∧ (rcOverride (rcOverride ⟨[], [], 0, none⟩ ⟨some (1/2), none, none, none⟩).2
        ⟨none, some (-1), none, none⟩).2.latestRc = some ⟨none, some (-1), none, none⟩
    ∧ (applyRcAxes ⟨0, 0, 0, 0⟩
        { (⟨some (1/2), none, none, none⟩ : RcAxes) with throttle := none }).throttle = 0
    ∧ (applyRcAxes ⟨0, 0, 0, 0⟩
        { (⟨some (1/2), none, none, none⟩ : RcAxes) with yaw := none }).yaw = 0
    ∧ (applyRcAxes ⟨0, 0, 0, 0⟩
        { (⟨some (1/2), none, none, none⟩ : RcAxes) with pitch := none }).pitch = 0
    ∧ (applyRcAxes ⟨0, 0, 0, 0⟩
        { (⟨some (1/2), none, none, none⟩ : RcAxes) with roll := none }).roll = 0 :=
  rc_override_spec ⟨[], [], 0, none⟩ ⟨some (1/2), none, none, none⟩
    ⟨none, some (-1), none, none⟩ ⟨0, 0, 0, 0⟩ (by decide)

/-! ## Transport selection (spec section 4.1, README "Desarrollo sin Pixhawk") -/

/-- A transport as seen by upstream components: the same interface whether
physical or simulated, plus the observability flag. -/
structure Transport where
  simulated : Bool
  endpointUsed : String
deriving Repr, DecidableEq

/-- The substituted simulated generator's transport. -/
def simTransport : Transport :=
  { simulated := true, endpointUsed := "SIM" }

/-- Modelled from the spec: `Transport.open`'s selection policy (spec 4.1,
README §Desarrollo sin Pixhawk): when the configured endpoint is `"SIM"` or
the configured device path does not exist at open time, the simulated
generator is substituted; otherwise the physical endpoint is opened.
`deviceExists` stands for the filesystem check on the device path. -/
def openTransport (cfg : LinkConfig) (deviceExists : Bool) : Transport :=
  if cfg.endpoint = "SIM" ∨ deviceExists = false then simTransport
  else { simulated := false, endpointUsed := cfg.endpoint }

/-- Read-only status accessor reporting whether the active transport is
simulated (spec 4.1, README `GET /api/device`). -/
def isSimulated (t : Transport) : Bool :=
  t.simulated

/-- C6: for every LinkConfig, `Transport.open` substitutes the simulated
generator exactly when the configured endpoint is `"SIM"` or the device
path does not exist at open time — in particular an endpoint of `"SIM"`
forces the simulator regardless of the device, and an absent device forces
it regardless of the endpoint; in all other cases (endpoint not `"SIM"`,
device present) the physical endpoint is opened — through the same
`Transport` interface; and when the simulated transport is active the
read-only accessor `isSimulated` reports `true`. -/
theorem transport_selection_spec (cfg : LinkConfig) (ex : Bool) :
    (isSimulated (openTransport cfg ex) = true
      ↔ (cfg.endpoint = "SIM" ∨ ex = false))
    ∧ (cfg.endpoint = "SIM" → openTransport cfg ex = simTransport)
    ∧ openTransport cfg false = simTransport
    ∧ (¬ cfg.endpoint = "SIM" →
        openTransport cfg true = { simulated := false, endpointUsed := cfg.endpoint })
    ∧ isSimulated simTransport = true := by
  refine ⟨?_, ?_, ?_, ?_, rfl⟩
  · rw [openTransport]
    by_cases hc : cfg.endpoint = "SIM" ∨ ex = false
    · rw [if_pos hc]
      simp [isSimulated, simTransport, hc]
    · rw [if_neg hc]
      simp only [isSimulated, Bool.false_eq_true, false_iff]
      exact hc
  · intro h
    rw [openTransport, if_pos (Or.inl h)]
  · rw [openTransport, if_pos (Or.inr rfl)]
  · intro h
    rw [openTransport, if_neg (by simp [h])]

/-- Witness for C6, exercising all three branches of the selection policy:
an endpoint of `"SIM"` forces the simulator even with the device present, a
real device path with the device absent falls back to the simulator, and a
real device path with the device present opens the physical endpoint;
`isSimulated` reports `true` for the forced simulator. -/
theorem transport_selection_spec_witness :
    openTransport ⟨"SIM", 57600, 3, 2, 1, 8, 3⟩ true = simTransport
    ∧ openTransport ⟨"/dev/ttyACM0", 57600, 3, 2, 1, 8, 3⟩ false = simTransport
    ∧ openTransport ⟨"/dev/ttyACM0", 57600, 3, 2, 1, 8, 3⟩ true
        = { simulated := false, endpointUsed := "/dev/ttyACM0" }
    ∧ isSimulated (openTransport ⟨"SIM", 57600, 3, 2, 1, 8, 3⟩ true) = true :=
  ⟨(transport_selection_spec ⟨"SIM", 57600, 3, 2, 1, 8, 3⟩ true).2.1 rfl,
   (transport_selection_spec ⟨"/dev/ttyACM0", 57600, 3, 2, 1, 8, 3⟩ false).2.2.1,
   (transport_selection_spec ⟨"/dev/ttyACM0", 57600, 3, 2, 1, 8, 3⟩ true).2.2.2.1
     (by decide),
   (transport_selection_spec ⟨"SIM", 57600, 3, 2, 1, 8, 3⟩ true).1.mpr (Or.inl rfl)⟩

/-! ## Simulated vehicle (spec section 4.1 selection policy, section 8 SIM
scenario) -/

/-- Modelled from the spec: the simulated generator's internal fake vehicle
state (spec 4.1): ARM flips a flag, TAKEOFF ramps altitude toward a target,
LAND ramps it back to 0 and disarms on touchdown. -/
structure SimVehicle where
  armed : Bool
  altitude : Rat
  targetAlt : Rat
  landing : Bool
deriving Repr, DecidableEq

/-- Altitude change per simulated cadence step, in meters. -/
def simStepSize : Rat := 1 / 2

/-- Commands the simulated generator accepts. -/
inductive SimCommand
  | arm
  | disarm
  | takeoff (alt : Rat)
  | land
deriving Repr, DecidableEq

/-- Modelled from the spec: command handling by the simulated generator
(spec 4.1): it accepts commands by updating its own internal fake vehicle
state and acknowledges them successfully. -/
def simApply (v : SimVehicle) : SimCommand → CmdResult × SimVehicle
  | .arm => (CmdResult.success, { v with armed := true })
  | .disarm => (CmdResult.success, { v with armed := false })
  | .takeoff alt => (CmdResult.success, { v with targetAlt := alt, landing := false })
  | .land => (CmdResult.success, { v with targetAlt := 0, landing := true })

/-- Modelled from the spec: one cadence step of the simulated generator: the
altitude ramps toward the target by at most `simStepSize`, and a landing
vehicle disarms once it reaches the ground. -/
def simTick (v : SimVehicle) : SimVehicle :=
  let alt :=
    if v.altitude < v.targetAlt then min (v.altitude + simStepSize) v.targetAlt
    else if v.targetAlt < v.altitude then max (v.altitude - simStepSize) v.targetAlt
    else v.altitude
  { v with altitude := alt,
           armed := if v.landing ∧ alt = 0 then false else v.armed }

/-- Iterating the simulated generator's cadence. -/
def simRun (v : SimVehicle) : Nat → SimVehicle
  | 0 => v
  | n + 1 => simRun (simTick v) n

theorem simTick_targetAlt (v : SimVehicle) : (simTick v).targetAlt = v.targetAlt := rfl

theorem simTick_landing (v : SimVehicle) : (simTick v).landing = v.landing := rfl

theorem simTick_altitude (v : SimVehicle) :
    (simTick v).altitude =
      if v.altitude < v.targetAlt then min (v.altitude + simStepSize) v.targetAlt
      else if v.targetAlt < v.altitude then max (v.altitude - simStepSize) v.targetAlt
      else v.altitude := rfl

theorem simTick_armed (v : SimVehicle) :
    (simTick v).armed =
      if v.landing ∧ (simTick v).altitude = 0 then false else v.armed := rfl

theorem simTick_alt_up (v : SimVehicle) (h : v.altitude < v.targetAlt) :
    (simTick v).altitude = min (v.altitude + simStepSize) v.targetAlt := by
  rw [simTick_altitude, if_pos h]

theorem simTick_alt_down (v : SimVehicle) (h : v.targetAlt < v.altitude) :
    (simTick v).altitude = max (v.altitude - simStepSize) v.targetAlt := by
  rw [simTick_altitude, if_neg (not_lt.mpr (le_of_lt h)), if_pos h]

theorem simTick_alt_stay (v : SimVehicle) (h : v.altitude = v.targetAlt) :
    (simTick v).altitude = v.altitude := by
  rw [simTick_altitude, if_neg (by rw [h]; exact lt_irrefl _),
    if_neg (by rw [h]; exact lt_irrefl _)]

theorem simStepSize_pos : (0 : Rat) < simStepSize := by norm_num [simStepSize]

theorem simTick_climb (v : SimVehicle) (h : v.altitude ≤ v.targetAlt) :
    v.altitude ≤ (simTick v).altitude ∧ (simTick v).altitude ≤ v.targetAlt := by
  by_cases hlt : v.altitude < v.targetAlt
  · rw [simTick_alt_up v hlt]
    constructor
    · exact le_min (by linarith [simStepSize_pos]) h
    · exact min_le_right _ _
  · rw [simTick_alt_stay v (le_antisymm h (not_lt.mp hlt))]
    exact ⟨le_refl _, h⟩

theorem simRun_climb_reach :
    ∀ (n : Nat) (v : SimVehicle), v.altitude ≤ v.targetAlt →
      v.targetAlt ≤ v.altitude + (n : Rat) * simStepSize →
      (simRun v n).altitude = v.targetAlt := by
  intro n
  induction n with
  | zero =>
    intro v h1 h2
    simp only [Nat.cast_zero, zero_mul, add_zero] at h2
    exact le_antisymm h1 h2
  | succ k ih =>
    intro v h1 h2
    show (simRun (simTick v) k).altitude = v.targetAlt
    have hk : (0:Rat) ≤ (k : Rat) * simStepSize :=
      mul_nonneg (Nat.cast_nonneg _) (le_of_lt simStepSize_pos)
    rw [← simTick_targetAlt v]
    by_cases hlt : v.altitude < v.targetAlt
    · have halt := simTick_alt_up v hlt
      apply ih
      · rw [halt, simTick_targetAlt]
        exact min_le_right _ _
      · rw [halt, simTick_targetAlt]
        rcases le_total (v.altitude + simStepSize) v.targetAlt with hc | hc
        · rw [min_eq_left hc]
          push_cast at h2 ⊢
          linarith
        · rw [min_eq_right hc]
          linarith
    · have heq : v.altitude = v.targetAlt := le_antisymm h1 (not_lt.mp hlt)
      have halt := simTick_alt_stay v heq
      apply ih
      · rw [halt, simTick_targetAlt]
        exact h1
      · rw [halt, simTick_targetAlt, heq]
        linarith

theorem simRun_descent_reach :
    ∀ (n : Nat) (v : SimVehicle), v.landing = true → v.targetAlt = 0 →
      0 ≤ v.altitude → v.altitude ≤ (n : Rat) * simStepSize → 1 ≤ n →
      (simRun v n).altitude = 0 ∧ (simRun v n).armed = false := by
  intro n
  induction n with
  | zero => intro v _ _ _ _ h5; omega
  | succ k ih =>
    intro v hland htgt h0 hle _
    have hcase : (simTick v).altitude = max (v.altitude - simStepSize) 0
        ∨ ((simTick v).altitude = v.altitude ∧ v.altitude = 0) := by
      by_cases hgt : (0:Rat) < v.altitude
      · left
        rw [simTick_alt_down v (by rw [htgt]; exact hgt), htgt]
      · right
        have hz : v.altitude = 0 := le_antisymm (not_lt.mp hgt) h0
        exact ⟨simTick_alt_stay v (by rw [hz, htgt]), hz⟩
    rcases Nat.eq_zero_or_pos k with hk0 | hk1
    · subst hk0
      have hz : (simTick v).altitude = 0 := by
        rcases hcase with h | h
        · rw [h]
          apply max_eq_right
          push_cast at hle
          linarith
        · rw [h.1, h.2]
      refine ⟨hz, ?_⟩
      show (simTick v).armed = false
      rw [simTick_armed, if_pos ⟨hland, hz⟩]
    · have h0' : 0 ≤ (simTick v).altitude := by
        rcases hcase with h | h
        · rw [h]; exact le_max_right _ _
        · rw [h.1, h.2]
      have hle' : (simTick v).altitude ≤ (k : Rat) * simStepSize := by
        have hk : (0:Rat) ≤ (k : Rat) * simStepSize :=
          mul_nonneg (Nat.cast_nonneg _) (le_of_lt simStepSize_pos)
        rcases hcase with h | h
        · rw [h]
          apply max_le _ hk
          push_cast at hle ⊢
          linarith
        · rw [h.1, h.2]; exact hk
      exact ih (simTick v) (by rw [simTick_landing]; exact hland)
        (by rw [simTick_targetAlt]; exact htgt) h0' hle' hk1

/-- C7: in the SIM scenario, an ARM command returns a success result and
leaves the fake vehicle armed; after TAKEOFF the target altitude is set
(10 for `takeoff(10)`) and the reported altitude climbs monotonically
toward it over subsequent snapshots, reaching it once enough cadence steps
have elapsed; after a LAND emergency the target drops to 0, the altitude
trends to 0 and the vehicle eventually disarms on touchdown. -/
theorem sim_scenario_spec (u w : SimVehicle) (n m : Nat)
    (hw : w.altitude ≤ w.targetAlt)
    (hreach : w.targetAlt ≤ w.altitude + (n : Rat) * simStepSize)
    (hu : 0 ≤ u.altitude) (hum : u.altitude ≤ (m : Rat) * simStepSize)
    (hm : 1 ≤ m) :
    (simApply u .arm).1 = CmdResult.success
    ∧ (simApply u .arm).2.armed = true
    ∧ (simApply u (.takeoff 10)).2.targetAlt = 10
    ∧ (w.altitude ≤ (simTick w).altitude ∧ (simTick w).altitude ≤ w.targetAlt)
    ∧ (simRun w n).altitude = w.targetAlt
    ∧ (simApply u .land).2.targetAlt = 0
    ∧ (simApply u .land).2.landing = true
    ∧ (simRun (simApply u .land).2 m).altitude = 0
    ∧ (simRun (simApply u .land).2 m).armed = false := by
  have hdesc := simRun_descent_reach m (simApply u .land).2 rfl rfl hu hum hm
  exact ⟨rfl, rfl, rfl, simTick_climb w hw, simRun_climb_reach n w hw hreach,
    rfl, rfl, hdesc.1, hdesc.2⟩

/-- Witness for C7: a disarmed vehicle on the ground armed and sent to 10 m
(reached within 20 cadence steps), then landed from 10 m (grounded and
disarmed within 20 cadence steps). -/
theorem sim_scenario_spec_witness :
    (simApply ⟨false, 10, 10, false⟩ .arm).1 = CmdResult.success
    ∧ (simApply ⟨false, 10, 10, false⟩ .arm).2.armed = true
    ∧ (simApply ⟨false, 10, 10, false⟩ (.takeoff 10)).2.targetAlt = 10
    ∧ ((⟨true, 0, 10, false⟩ : SimVehicle).altitude
          ≤ (simTick ⟨true, 0, 10, false⟩).altitude
        ∧ (simTick ⟨true, 0, 10, false⟩).altitude
          ≤ (⟨true, 0, 10, false⟩ : SimVehicle).targetAlt)
    ∧ (simRun ⟨true, 0, 10, false⟩ 20).altitude
        = (⟨true, 0, 10, false⟩ : SimVehicle).targetAlt
    ∧ (simApply ⟨false, 10, 10, false⟩ .land).2.targetAlt = 0
    ∧ (simApply ⟨false, 10, 10, false⟩ .land).2.landing = true
    ∧ (simRun (simApply ⟨false, 10, 10, false⟩ .land).2 20).altitude = 0
    ∧ (simRun (simApply ⟨false, 10, 10, false⟩ .land).2 20).armed = false :=
  sim_scenario_spec ⟨false, 10, 10, false⟩ ⟨true, 0, 10, false⟩ 20 20
    (show (0:Rat) ≤ (10:Rat) by norm_num)
    (show (10:Rat) ≤ 0 + ((20:Nat):Rat) * simStepSize by norm_num [simStepSize])
    (show (0:Rat) ≤ (10:Rat) by norm_num)
    (show (10:Rat) ≤ ((20:Nat):Rat) * simStepSize by norm_num [simStepSize])
    (by norm_num)
/-! ## Mobile DroneContext (`src/mobile/src/context/DroneContext.tsx`) -/

/-- WebSocket ready states; `wsOpen` corresponds to `WebSocket.OPEN`. -/
inductive WsReadyState
  | connecting
  | wsOpen
  | closing
  | closed
deriving Repr, DecidableEq

/-- The Telemetry interface of `DroneContext.tsx` (lines 8–23). -/
structure MobileTelemetry where
  armed : Bool
  mode : String
  altitude : Rat
  latitude : Rat
  longitude : Rat
  roll : Rat
  pitch : Rat
  yaw : Rat
  battery_voltage : Rat
  battery_remaining : Rat
  ground_speed : Rat
  vertical_speed : Rat
  satellites : Nat
  hdop : Rat
deriving Repr, DecidableEq

/-- Payload of a message sent over the command WebSocket: the RC_CONTROL
params object `{throttle, yaw, pitch, roll}` built by `setJoystick`, or a
generic params object for other command types. -/
inductive WsPayload
  | rcControl (throttle yaw pitch roll : Option Rat)
  | plain (params : List (String × Rat))
deriving Repr, DecidableEq

/-- State visible to `DroneProvider`: the WebSocket ref (`None` when
`ws.current` is null, otherwise its ready state), the messages sent so far
over the socket, and the `telemetry` and `connected` React state. -/
structure AppState where
  ws : Option WsReadyState
  sent : List (String × WsPayload)
  telemetry : MobileTelemetry
  connected : Bool
deriving Repr, DecidableEq

/-- `DroneContext.tsx` lines 125–137: `sendCommand` returns immediately —
resolving its promise without sending anything — when `ws.current` is null
or its `readyState` is not `WebSocket.OPEN`; otherwise it serializes
`{type, params}` and sends it over the socket. -/
def sendCommand (st : AppState) (ty : String) (payload : WsPayload) : AppState :=
  match st.ws with
  | none => st
  | some rs =>
    if rs = WsReadyState.wsOpen then { st with sent := st.sent ++ [(ty, payload)] }
    else st

/-- `DroneContext.tsx` lines 184–186: `setJoystick` forwards the four axis
values to `sendCommand` as an `RC_CONTROL` message. -/
def setJoystick (st : AppState) (throttle yaw pitch roll : Option Rat) : AppState :=
  sendCommand st "RC_CONTROL" (WsPayload.rcControl throttle yaw pitch roll)

/-- The guard condition of `sendCommand`:
`!ws.current || ws.current.readyState !== WebSocket.OPEN`. -/
def wsNotOpen : Option WsReadyState → Bool
  | none => true
  | some rs => rs != WsReadyState.wsOpen

/-- C10: every call to `DroneContext.sendCommand` — including the
`RC_CONTROL` messages produced by `setJoystick` — made while the WebSocket
is null or its readyState is not OPEN sends nothing and leaves the state
unchanged (in particular the telemetry and connected state); the call
returns normally (the model is a total function), so commands issued while
disconnected are silently dropped rather than queued or reported as
errors. -/
theorem send_command_disconnected_spec (st : AppState) (ty : String)
    (payload : WsPayload) (t y p r : Option Rat)
    (h : wsNotOpen st.ws = true) :
    sendCommand st ty payload = st
    ∧ setJoystick st t y p r = st
    ∧ (sendCommand st ty payload).sent = st.sent
    ∧ (sendCommand st ty payload).telemetry = st.telemetry
    ∧ (sendCommand st ty payload).connected = st.connected := by
  have hsend : ∀ (ty' : String) (pl : WsPayload), sendCommand st ty' pl = st := by
    intro ty' pl
    cases hws : st.ws with
    | none => rw [sendCommand, hws]
    | some rs =>
      have hne : ¬ rs = WsReadyState.wsOpen := by
        intro hcontra
        rw [hws, hcontra] at h
        simp [wsNotOpen] at h
      rw [sendCommand, hws]
      show (if rs = WsReadyState.wsOpen
          then { ws := some rs, sent := st.sent ++ [(ty', pl)],
                 telemetry := st.telemetry, connected := st.connected }
          else st) = st
      rw [if_neg hne]
  refine ⟨hsend ty payload, hsend _ _, ?_, ?_, ?_⟩ <;> rw [hsend ty payload]

/-- Witness for C10: a closed WebSocket, a LAND command and a joystick
update; nothing is sent and the state is untouched. -/
theorem send_command_disconnected_spec_witness :
    sendCommand
        ⟨some WsReadyState.closed, [],
          ⟨false, "UNKNOWN", 0, 0, 0, 0, 0, 0, 0, 0, 0, 0, 0, 0⟩, false⟩
        "LAND" (WsPayload.plain [])
      = ⟨some WsReadyState.closed, [],
          ⟨false, "UNKNOWN", 0, 0, 0, 0, 0, 0, 0, 0, 0, 0, 0, 0⟩, false⟩
    ∧ setJoystick
        ⟨some WsReadyState.closed, [],
          ⟨false, "UNKNOWN", 0, 0, 0, 0, 0, 0, 0, 0, 0, 0, 0, 0⟩, false⟩
        (some (1/2)) (some 0) none none
      = ⟨some WsReadyState.closed, [],
          ⟨false, "UNKNOWN", 0, 0, 0, 0, 0, 0, 0, 0, 0, 0, 0, 0⟩, false⟩
    ∧ (sendCommand
        ⟨some WsReadyState.closed, [],
          ⟨false, "UNKNOWN", 0, 0, 0, 0, 0, 0, 0, 0, 0, 0, 0, 0⟩, false⟩
        "LAND" (WsPayload.plain [])).sent = []
    ∧ (sendCommand
        ⟨some WsReadyState.closed, [],
          ⟨false, "UNKNOWN", 0, 0, 0, 0, 0, 0, 0, 0, 0, 0, 0, 0⟩, false⟩
        "LAND" (WsPayload.plain [])).telemetry
      = ⟨false, "UNKNOWN", 0, 0, 0, 0, 0, 0, 0, 0, 0, 0, 0, 0⟩
    ∧ (sendCommand
        ⟨some WsReadyState.closed, [],
          ⟨false, "UNKNOWN", 0, 0, 0, 0, 0, 0, 0, 0, 0, 0, 0, 0⟩, false⟩
        "LAND" (WsPayload.plain [])).connected = false :=
  send_command_disconnected_spec
    ⟨some WsReadyState.closed, [],
      ⟨false, "UNKNOWN", 0, 0, 0, 0, 0, 0, 0, 0, 0, 0, 0, 0⟩, false⟩
    "LAND" (WsPayload.plain []) (some (1/2)) (some 0) none none rfl

/-! ## Joystick component (`src/mobile/App.tsx`, Joystick / PanResponder) -/

/-- The Joystick's `mode` prop: `'vertical' | 'horizontal' | 'both'`. -/
inductive JoyMode
  | vertical
  | horizontal
  | both
deriving Repr, DecidableEq

/-- JavaScript's `Math.atan2(y, x)`, in exact real arithmetic (the signed
zero and NaN cases of IEEE floats do not arise here). -/
noncomputable def atan2 (y x : ℝ) : ℝ :=
  if 0 < x then Real.arctan (y / x)
  else if x < 0 then
    (if 0 ≤ y then Real.arctan (y / x) + Real.pi
     else Real.arctan (y / x) - Real.pi)
  else
    (if 0 < y then Real.pi / 2
     else if y < 0 then -(Real.pi / 2)
     else 0)

/-- `onPanResponderMove` of the Joystick component (`App.tsx`): the gesture
delta `(dx, dy)` is restricted by the mode, clamped to the circular area of
radius `maxDistance = centerRadius - stickRadius = size/2 - size/4` using
`Math.atan2`/`cos`/`sin`, then normalized to `(newX / maxDistance,
-newY / maxDistance)` — the pair passed to `onMove`. -/
noncomputable def joyMove (mode : JoyMode) (size dx dy : ℝ) : ℝ × ℝ :=
  let newX := if mode = JoyMode.vertical then 0 else dx
  let newY := if mode = JoyMode.horizontal then 0 else dy
  let distance := Real.sqrt (newX * newX + newY * newY)
  let maxDistance := size / 2 - size / 4
  let cx := if maxDistance < distance
    then Real.cos (atan2 newY newX) * maxDistance else newX
  let cy := if maxDistance < distance
    then Real.sin (atan2 newY newX) * maxDistance else newY
  (cx / maxDistance, -cy / maxDistance)

/-- `onPanResponderRelease` of the Joystick component: the stick returns to
the center and `onMove(0, 0)` is called. -/
def joyRelease : ℝ × ℝ := (0, 0)

theorem clamped_norm_le (m nx ny : ℝ) (hm : 0 < m) :
    ((if m < Real.sqrt (nx * nx + ny * ny)
        then Real.cos (atan2 ny nx) * m else nx) / m) ^ 2
    + (-(if m < Real.sqrt (nx * nx + ny * ny)
        then Real.sin (atan2 ny nx) * m else ny) / m) ^ 2 ≤ 1 := by
  have hm' : m ≠ 0 := ne_of_gt hm
  by_cases h : m < Real.sqrt (nx * nx + ny * ny)
  · rw [if_pos h, if_pos h, mul_div_cancel_right₀ _ hm']
    have h2 : -(Real.sin (atan2 ny nx) * m) / m = -Real.sin (atan2 ny nx) := by
      field_simp
    rw [h2, neg_sq, Real.cos_sq_add_sin_sq]
  · rw [if_neg h, if_neg h]
    have hd : Real.sqrt (nx * nx + ny * ny) ≤ m := not_lt.mp h
    have hd0 : (0:ℝ) ≤ nx * nx + ny * ny :=
      add_nonneg (mul_self_nonneg nx) (mul_self_nonneg ny)
    have hsq : Real.sqrt (nx * nx + ny * ny) ^ 2 = nx * nx + ny * ny :=
      Real.sq_sqrt hd0
    have h1 : nx * nx + ny * ny ≤ m ^ 2 := by
      nlinarith [Real.sqrt_nonneg (nx * nx + ny * ny)]
    have hm2 : (0:ℝ) < m ^ 2 := by positivity
    have heq : (nx / m) ^ 2 + (-ny / m) ^ 2 = (nx * nx + ny * ny) / m ^ 2 := by
      field_simp
      ring
    rw [heq, div_le_one hm2]
    exact h1

theorem joyMove_vertical_fst (size dx dy : ℝ) (hs : 0 < size) :
    (joyMove JoyMode.vertical size dx dy).1 = 0 := by
  have hm : (0:ℝ) < size / 2 - size / 4 := by linarith
  show (if size / 2 - size / 4 < Real.sqrt ((0:ℝ) * 0 + dy * dy)
      then Real.cos (atan2 dy 0) * (size / 2 - size / 4) else 0)
    / (size / 2 - size / 4) = 0
  by_cases h : size / 2 - size / 4 < Real.sqrt ((0:ℝ) * 0 + dy * dy)
  · rw [if_pos h]
    have hdy : dy ≠ 0 := by
      intro h0
      rw [h0] at h
      have hz : (0:ℝ) * 0 + 0 * 0 = 0 := by ring
      rw [hz, Real.sqrt_zero] at h
      linarith
    have hcos : Real.cos (atan2 dy 0) = 0 := by
      rw [atan2, if_neg (lt_irrefl (0:ℝ)), if_neg (lt_irrefl (0:ℝ))]
      rcases lt_or_gt_of_ne hdy with hneg | hpos
      · rw [if_neg (by linarith), if_pos hneg, Real.cos_neg]
        exact Real.cos_pi_div_two
      · rw [if_pos hpos]
        exact Real.cos_pi_div_two
    rw [hcos, zero_mul, zero_div]
  · rw [if_neg h, zero_div]

theorem joyMove_horizontal_snd (size dx dy : ℝ) (hs : 0 < size) :
    (joyMove JoyMode.horizontal size dx dy).2 = 0 := by
  have hm : (0:ℝ) < size / 2 - size / 4 := by linarith
  show -(if size / 2 - size / 4 < Real.sqrt (dx * dx + (0:ℝ) * 0)
      then Real.sin (atan2 0 dx) * (size / 2 - size / 4) else 0)
    / (size / 2 - size / 4) = 0
  by_cases h : size / 2 - size / 4 < Real.sqrt (dx * dx + (0:ℝ) * 0)
  · rw [if_pos h]
    have hdx : dx ≠ 0 := by
      intro h0
      rw [h0] at h
      have hz : (0:ℝ) * 0 + 0 * 0 = 0 := by ring
      rw [hz, Real.sqrt_zero] at h
      linarith
    have hsin : Real.sin (atan2 0 dx) = 0 := by
      rw [atan2]
      rcases lt_or_gt_of_ne hdx with hneg | hpos
      · rw [if_neg (by linarith), if_pos hneg, if_pos (le_refl (0:ℝ)),
          zero_div, Real.arctan_zero, zero_add]
        exact Real.sin_pi
      · rw [if_pos hpos, zero_div, Real.arctan_zero]
        exact Real.sin_zero
    rw [hsin, zero_mul, neg_zero, zero_div]
  · rw [if_neg h, neg_zero, zero_div]

/-- C9: for every pan gesture handled by the Joystick component the pair
`(x, y)` passed to `onMove` satisfies `x² + y² ≤ 1` — so each coordinate
lies in `[-1, 1]`, meeting the RC_OVERRIDE axis precondition; in mode
`'vertical'` the `x` output is 0 and in mode `'horizontal'` the `y` output
is 0; and on gesture release `onMove` is called with exactly `(0, 0)`. -/
theorem joystick_output_spec (mode : JoyMode) (size dx dy : ℝ) (hs : 0 < size) :
    (joyMove mode size dx dy).1 ^ 2 + (joyMove mode size dx dy).2 ^ 2 ≤ 1
    ∧ (-1 ≤ (joyMove mode size dx dy).1 ∧ (joyMove mode size dx dy).1 ≤ 1)
    ∧ (-1 ≤ (joyMove mode size dx dy).2 ∧ (joyMove mode size dx dy).2 ≤ 1)
    ∧ (joyMove JoyMode.vertical size dx dy).1 = 0
    ∧ (joyMove JoyMode.horizontal size dx dy).2 = 0
    ∧ joyRelease = (0, 0) := by
  have hm : (0:ℝ) < size / 2 - size / 4 := by linarith
  have h1 : (joyMove mode size dx dy).1 ^ 2 + (joyMove mode size dx dy).2 ^ 2 ≤ 1 :=
    clamped_norm_le (size / 2 - size / 4)
      (if mode = JoyMode.vertical then 0 else dx)
      (if mode = JoyMode.horizontal then 0 else dy) hm
  have hxs := sq_nonneg (joyMove mode size dx dy).1
  have hys := sq_nonneg (joyMove mode size dx dy).2
  refine ⟨h1, ⟨?_, ?_⟩, ⟨?_, ?_⟩, joyMove_vertical_fst size dx dy hs,
    joyMove_horizontal_snd size dx dy hs, rfl⟩
  · nlinarith [sq_nonneg ((joyMove mode size dx dy).1 + 1)]
  · nlinarith [sq_nonneg ((joyMove mode size dx dy).1 - 1)]
  · nlinarith [sq_nonneg ((joyMove mode size dx dy).2 + 1)]
  · nlinarith [sq_nonneg ((joyMove mode size dx dy).2 - 1)]

/-- Witness for C9: a gesture far outside the clamp circle on a joystick of
size 4 in mode `'both'`. -/
theorem joystick_output_spec_witness :
    (joyMove JoyMode.both 4 3 (-5)).1 ^ 2 + (joyMove JoyMode.both 4 3 (-5)).2 ^ 2 ≤ 1
    ∧ (-1 ≤ (joyMove JoyMode.both 4 3 (-5)).1 ∧ (joyMove JoyMode.both 4 3 (-5)).1 ≤ 1)
    ∧ (-1 ≤ (joyMove JoyMode.both 4 3 (-5)).2 ∧ (joyMove JoyMode.both 4 3 (-5)).2 ≤ 1)
    ∧ (joyMove JoyMode.vertical 4 3 (-5)).1 = 0
    ∧ (joyMove JoyMode.horizontal 4 3 (-5)).2 = 0
    ∧ joyRelease = (0, 0) :=
  joystick_output_spec JoyMode.both 4 3 (-5) (by norm_num)

end BackMavlink
